import Mathlib

/-!
Shallow embedding of the Petspalace ingestion-and-alerting pipeline:
the inbound payload schemas of `src/api/models.py` (`LitterEventPayload`,
`PlayroomAlertPayload`), the persistence helpers of `src/api/database.py`
(`record_litter_event`, `record_playroom_alert`, `create_alert_from_event`,
`session_scope`), and the two message handlers of `src/edge/consumer.py`
(`handle_litter_event`, `handle_playroom_alert`).

Modelling conventions:
* JSON documents are the inductive `Json`; a message body that is not
  syntactically valid JSON is modelled as `none : Option Json` (pydantic's
  `model_validate_json` raises `ValidationError` both for invalid JSON and
  for schema violations).
* Python floats on these code paths are only compared and copied, never
  subject to rounding, so they are modelled as `ℚ`.
* pydantic's coercion of a JSON value to `datetime` and its `HttpUrl`
  well-formedness check are external library behaviour; they are passed to
  the validators as parameters (`parseDatetime`, `isHttpUrl`).  Concrete
  witnesses instantiate them with `parseDatetimeNum` (a JSON number as an
  epoch timestamp, which pydantic accepts) and a concrete URL predicate.
* The database is a pair of append-only tables; SQLAlchemy sessions are a
  `(committed, pending)` pair where `commit` publishes the pending state and
  `rollback` restores the committed one.  Whether a commit succeeds is
  injected through `DbEnv`, modelling `PersistenceError`.  Row ids (uuid4)
  are omitted; no claim mentions them.
* `logging` calls are modelled as a list of `LogEntry` values returned by
  each handler.
-/

/-- JSON values, as decoded from a message body. -/
inductive Json where
  | null : Json
  | bool (b : Bool) : Json
  | num (q : ℚ) : Json
  | str (s : String) : Json
  | arr (elems : List Json) : Json
  | obj (fields : List (String × Json)) : Json

/-- The shape of pydantic `ValidationError` as far as the pipeline observes
it: which field (if any) was missing, ill-typed, or forbidden. -/
inductive ValidationError where
  | invalidJson : ValidationError
  | notAnObject : ValidationError
  | extraForbidden (key : String) : ValidationError
  | missing (field : String) : ValidationError
  | wrongType (field : String) : ValidationError
  deriving DecidableEq

/-- Timestamps, modelled as rational epoch seconds. -/
abbrev DateTime := ℚ

/-- `LitterEventPayload` of `src/api/models.py`: the validated form of a
message on the `events.litter.*` subject family. -/
structure LitterEventPayload where
  pet_id : String
  type : String
  ts : DateTime
  duration_s : ℚ
  conf : ℚ
  payload : List (String × Json)

/-- `PlayroomAlertPayload` of `src/api/models.py`: the validated form of a
message on the `playroom.alerts.*` subject family.  `evidence_url` keeps the
validated URL as a string (`str(payload.evidence_url)` is what the code
stores). -/
structure PlayroomAlertPayload where
  pet_id : String
  room_id : String
  kind : String
  severity : String
  state : String
  evidence_url : String
  ts : DateTime
  deriving DecidableEq

/-- First value bound to a key in a JSON object. -/
def getField (kvs : List (String × Json)) (k : String) : Option Json :=
  (kvs.find? (fun p => p.1 == k)).map (·.2)

/-- The declared field names of `LitterEventPayload`. -/
def litterFields : List String :=
  ["pet_id", "type", "ts", "duration_s", "conf", "payload"]

/-- The declared field names of `PlayroomAlertPayload`. -/
def playroomFields : List String :=
  ["pet_id", "room_id", "kind", "severity", "state", "evidence_url", "ts"]

/-- `LitterEventPayload.model_validate_json`.  The model is declared with
`model_config = ConfigDict(extra="forbid")` and plain annotations
`pet_id: str`, `type: str`, `ts: datetime`, `duration_s: float`,
`conf: float`, `payload: Dict[str, Any]` — every field required, no
value-range or length constraint on any of them. -/
def validateLitter (parseDatetime : Json → Option DateTime) (input : Option Json) :
    Except ValidationError LitterEventPayload := do
  let some j := input | throw .invalidJson
  let .obj kvs := j | throw .notAnObject
  match kvs.find? (fun p => !(litterFields.contains p.1)) with
  | some kv => throw (.extraForbidden kv.1)
  | none => pure ()
  let some pidJ := getField kvs "pet_id" | throw (.missing "pet_id")
  let .str pet_id := pidJ | throw (.wrongType "pet_id")
  let some tyJ := getField kvs "type" | throw (.missing "type")
  let .str ty := tyJ | throw (.wrongType "type")
  let some tsJ := getField kvs "ts" | throw (.missing "ts")
  let some ts := parseDatetime tsJ | throw (.wrongType "ts")
  let some durJ := getField kvs "duration_s" | throw (.missing "duration_s")
  let .num duration_s := durJ | throw (.wrongType "duration_s")
  let some confJ := getField kvs "conf" | throw (.missing "conf")
  let .num conf := confJ | throw (.wrongType "conf")
  let some plJ := getField kvs "payload" | throw (.missing "payload")
  let .obj payload := plJ | throw (.wrongType "payload")
  return { pet_id := pet_id, type := ty, ts := ts,
           duration_s := duration_s, conf := conf, payload := payload }

/-- `PlayroomAlertPayload.model_validate_json`.  Also `extra="forbid"`;
`evidence_url: HttpUrl` must be a well-formed URL, the rest are plain
`str` fields plus `ts: datetime`. -/
def validatePlayroom (parseDatetime : Json → Option DateTime)
    (isHttpUrl : String → Bool) (input : Option Json) :
    Except ValidationError PlayroomAlertPayload := do
  let some j := input | throw .invalidJson
  let .obj kvs := j | throw .notAnObject
  match kvs.find? (fun p => !(playroomFields.contains p.1)) with
  | some kv => throw (.extraForbidden kv.1)
  | none => pure ()
  let some pidJ := getField kvs "pet_id" | throw (.missing "pet_id")
  let .str pet_id := pidJ | throw (.wrongType "pet_id")
  let some roomJ := getField kvs "room_id" | throw (.missing "room_id")
  let .str room_id := roomJ | throw (.wrongType "room_id")
  let some kindJ := getField kvs "kind" | throw (.missing "kind")
  let .str kind := kindJ | throw (.wrongType "kind")
  let some sevJ := getField kvs "severity" | throw (.missing "severity")
  let .str severity := sevJ | throw (.wrongType "severity")
  let some stJ := getField kvs "state" | throw (.missing "state")
  let .str st := stJ | throw (.wrongType "state")
  let some urlJ := getField kvs "evidence_url" | throw (.missing "evidence_url")
  let .str evidence_url := urlJ | throw (.wrongType "evidence_url")
  if !(isHttpUrl evidence_url) then throw (.wrongType "evidence_url")
  let some tsJ := getField kvs "ts" | throw (.missing "ts")
  let some ts := parseDatetime tsJ | throw (.wrongType "ts")
  return { pet_id := pet_id, room_id := room_id, kind := kind,
           severity := severity, state := st,
           evidence_url := evidence_url, ts := ts }

/-- A concrete datetime-coercion model used by witnesses: a JSON number is
accepted as an epoch timestamp (pydantic coerces int/float to `datetime`). -/
def parseDatetimeNum : Json → Option DateTime
  | .num q => some q
  | _ => none

/-- A row of the `events` table (`EventRecordORM` in `src/api/database.py`);
`duration_s` and `conf` are nullable columns.  The uuid primary key is
omitted. -/
structure EventRow where
  source : String
  pet_id : String
  type : String
  ts : DateTime
  duration_s : Option ℚ
  conf : Option ℚ
  payload_json : List (String × Json)
  created_at : DateTime

/-- A row of the `alerts` table (`AlertRecord` in `src/api/database.py`).
The uuid primary key is omitted. -/
structure AlertRow where
  pet_id : String
  room_id : Option String
  kind : String
  severity : String
  state : String
  evidence_url : Option String
  ts : DateTime
  created_at : DateTime
  deriving DecidableEq

/-- The durable state of the store: the two tables the pipeline writes. -/
structure Db where
  events : List EventRow
  alerts : List AlertRow

/-- A SQLAlchemy session over `Db`: `committed` is what the database holds,
`pending` additionally holds rows added but not yet committed.
`session.commit()` sets `committed := pending`; `session.rollback()` sets
`pending := committed`. -/
structure SessionState where
  committed : Db
  pending : Db

/-- Fault model for `PersistenceError`: whether the commit performed inside
`record_litter_event` / `record_playroom_alert` respectively
`create_alert_from_event` succeeds. -/
structure DbEnv where
  eventWriteOk : Bool
  alertWriteOk : Bool

/-- The error a failed `session.commit()` raises. -/
inductive PersistenceError where
  | commitFailed : PersistenceError
  deriving DecidableEq

/-- `record_litter_event` of `src/api/database.py`: build an `events` row
from the subject and the validated payload, `session.add` it and
`session.commit()`.  A failed commit raises; SQLAlchemy then discards the
uncommitted insert. -/
def record_litter_event (env : DbEnv) (subject : String)
    (payload : LitterEventPayload) (now : DateTime) (s : SessionState) :
    Except PersistenceError (SessionState × EventRow) :=
  let record : EventRow :=
    { source := subject
      pet_id := payload.pet_id
      type := payload.type
      ts := payload.ts
      duration_s := some payload.duration_s
      conf := some payload.conf
      payload_json := payload.payload
      created_at := now }
  let s := { s with pending := { s.pending with events := s.pending.events ++ [record] } }
  if env.eventWriteOk then
    .ok ({ s with committed := s.pending }, record)
  else
    .error .commitFailed

/-- `record_playroom_alert` of `src/api/database.py`: copy the validated
playroom payload into an `alerts` row (with `str(payload.evidence_url)`),
`session.add` and `session.commit()`. -/
def record_playroom_alert (env : DbEnv) (payload : PlayroomAlertPayload)
    (now : DateTime) (s : SessionState) :
    Except PersistenceError (SessionState × AlertRow) :=
  let record : AlertRow :=
    { pet_id := payload.pet_id
      room_id := some payload.room_id
      kind := payload.kind
      severity := payload.severity
      state := payload.state
      evidence_url := some payload.evidence_url
      ts := payload.ts
      created_at := now }
  let s := { s with pending := { s.pending with alerts := s.pending.alerts ++ [record] } }
  if env.alertWriteOk then
    .ok ({ s with committed := s.pending }, record)
  else
    .error .commitFailed

/-- `create_alert_from_event` of `src/api/database.py`: build an `alerts`
row with defaults `state="open"`, `room_id=None`, `evidence_url=None`,
`ts=None`, where a missing `ts` falls back to `_utcnow()` (`ts or
_utcnow()`), then `session.add` and `session.commit()`.  The Python
defaults (`state="open"`, `room_id=None`, `evidence_url=None`, `ts=None`)
are spelled out at the call site in `handle_litter_event`, which passes
none of them. -/
def create_alert_from_event (env : DbEnv) (pet_id kind severity : String)
    (st : String) (room_id : Option String)
    (evidence_url : Option String) (ts : Option DateTime)
    (now : DateTime) (s : SessionState) :
    Except PersistenceError (SessionState × AlertRow) :=
  let record : AlertRow :=
    { pet_id := pet_id
      room_id := room_id
      kind := kind
      severity := severity
      state := st
      evidence_url := evidence_url
      ts := ts.getD now
      created_at := now }
  let s := { s with pending := { s.pending with alerts := s.pending.alerts ++ [record] } }
  if env.alertWriteOk then
    .ok ({ s with committed := s.pending }, record)
  else
    .error .commitFailed


/-- `EdgeSettings` of `src/edge/consumer.py`: the two anomaly thresholds
(`nats_url` and `database_url` play no part in the rule and are omitted). -/
structure EdgeSettings where
  litter_conf_threshold : ℚ
  litter_duration_threshold : ℚ

/-- `2/5 = 0.4`, written as a raw numerator/denominator pair so that
concrete threshold comparisons compute inside the kernel. -/
def q2of5 : ℚ := ⟨2, 5, by decide, by decide⟩

/-- `1/10 = 0.1`, in raw form (see `q2of5`). -/
def q1of10 : ℚ := ⟨1, 10, by decide, by decide⟩

/-- `9/10 = 0.9`, in raw form (see `q2of5`). -/
def q9of10 : ℚ := ⟨9, 10, by decide, by decide⟩

/-- The default thresholds: `LITTER_CONF_THRESHOLD=0.4`,
`LITTER_DURATION_THRESHOLD=180`. -/
def defaultSettings : EdgeSettings :=
  { litter_conf_threshold := q2of5, litter_duration_threshold := 180 }

/-- The log lines the two handlers emit, tagged by call site. -/
inductive LogEntry where
  | errorInvalidLitter (e : ValidationError) : LogEntry
  | infoLitterReceived (subject pet_id : String) : LogEntry
  | errorInvalidPlayroom (e : ValidationError) : LogEntry
  | infoPlayroomReceived (room_id : String) : LogEntry
  deriving DecidableEq

/-- An inbound bus message: its subject and its body after JSON decoding
(`none` = the bytes were not valid JSON). -/
structure Msg where
  subject : String
  data : Option Json

/-- What a handler invocation leaves behind: whether it returned normally
or let an exception escape to the bus client, the committed database state,
and the log lines it wrote. -/
structure HandlerOutcome where
  outcome : Except PersistenceError Unit
  db : Db
  log : List LogEntry

/-- `handle_litter_event` of `src/edge/consumer.py`: validate (on
`ValidationError` log and return), log receipt, then inside
`session_scope`: `record_litter_event`, compute `duration_breach` and
`confidence_breach`, and if either holds call `create_alert_from_event`
with kind `"litter-anomaly"` and severity `"high"` when the confidence
breached else `"moderate"`.  A `PersistenceError` escapes the `with` block
uncaught: `session_scope` rolls back the pending state and re-raises, so
the outcome is `.error` and the database keeps exactly what was committed
before the failure.  The final commit of `session_scope` on the success
path is a no-op because every helper already committed. -/
def handle_litter_event (settings : EdgeSettings)
    (parseDatetime : Json → Option DateTime) (env : DbEnv) (now : DateTime)
    (msg : Msg) (db : Db) : HandlerOutcome :=
  match validateLitter parseDatetime msg.data with
  | .error e => ⟨.ok (), db, [.errorInvalidLitter e]⟩
  | .ok payload =>
    let log := [LogEntry.infoLitterReceived msg.subject payload.pet_id]
    let s : SessionState := ⟨db, db⟩
    match record_litter_event env msg.subject payload now s with
    | .error pe => ⟨.error pe, s.committed, log⟩
    | .ok (s1, _) =>
      let duration_breach : Bool := payload.duration_s > settings.litter_duration_threshold
      let confidence_breach : Bool := payload.conf < settings.litter_conf_threshold
      if duration_breach || confidence_breach then
        let severity := if confidence_breach then "high" else "moderate"
        match create_alert_from_event env payload.pet_id "litter-anomaly" severity
            "open" none none none now s1 with
        | .error pe => ⟨.error pe, s1.committed, log⟩
        | .ok (s2, _) => ⟨.ok (), s2.committed, log⟩
      else ⟨.ok (), s1.committed, log⟩

/-- `handle_playroom_alert` of `src/edge/consumer.py`: validate (on
`ValidationError` log and return), log receipt, then inside
`session_scope` call `record_playroom_alert`.  No rule evaluation on this
route. -/
def handle_playroom_alert (parseDatetime : Json → Option DateTime)
    (isHttpUrl : String → Bool) (env : DbEnv) (now : DateTime)
    (msg : Msg) (db : Db) : HandlerOutcome :=
  match validatePlayroom parseDatetime isHttpUrl msg.data with
  | .error e => ⟨.ok (), db, [.errorInvalidPlayroom e]⟩
  | .ok payload =>
    let log := [LogEntry.infoPlayroomReceived payload.room_id]
    let s : SessionState := ⟨db, db⟩
    match record_playroom_alert env payload now s with
    | .error pe => ⟨.error pe, s.committed, log⟩
    | .ok (s1, _) => ⟨.ok (), s1.committed, log⟩

/-- A litter-subject JSON body carrying exactly the declared fields, with a
numeric `ts`. -/
def mkLitterJson (pet_id ty : String) (tsq duration_s conf : ℚ)
    (payload : List (String × Json)) : Json :=
  .obj [("pet_id", .str pet_id), ("type", .str ty), ("ts", .num tsq),
        ("duration_s", .num duration_s), ("conf", .num conf),
        ("payload", .obj payload)]

/-- A playroom-subject JSON body carrying exactly the declared fields, with
a numeric `ts`. -/
def mkPlayroomJson (pet_id room_id kind severity st evidence_url : String)
    (tsq : ℚ) : Json :=
  .obj [("pet_id", .str pet_id), ("room_id", .str room_id),
        ("kind", .str kind), ("severity", .str severity),
        ("state", .str st), ("evidence_url", .str evidence_url),
        ("ts", .num tsq)]

/-- A concrete URL-shape model used by witnesses: pydantic `HttpUrl`
accepts http/https URLs.  (Compared on the character list so that concrete
instances compute inside the kernel.) -/
def isUrlModel (s : String) : Bool :=
  decide (s.data.take 7 = "http://".data) ||
    decide (s.data.take 8 = "https://".data)

example :
    validateLitter parseDatetimeNum (some (mkLitterJson "p1" "use" 0 200 q9of10 [])) =
      .ok ⟨"p1", "use", 0, 200, q9of10, []⟩ := rfl

example :
    validatePlayroom parseDatetimeNum isUrlModel
      (some (mkPlayroomJson "p2" "r1" "fight" "high" "open" "https://x/e.mp4" 0)) =
      .ok ⟨"p2", "r1", "fight", "high", "open", "https://x/e.mp4", 0⟩ := rfl

/-- On a message that validates, with both commits succeeding, the litter
handler commits exactly the event row and, when a threshold is breached,
exactly one derived alert row. -/
lemma handle_litter_event_valid_eq (settings : EdgeSettings)
    (parseDatetime : Json → Option DateTime) (now : DateTime) (msg : Msg)
    (db : Db) (p : LitterEventPayload)
    (hv : validateLitter parseDatetime msg.data = .ok p) :
    handle_litter_event settings parseDatetime ⟨true, true⟩ now msg db =
      ⟨.ok (),
       ⟨db.events ++ [⟨msg.subject, p.pet_id, p.type, p.ts, some p.duration_s,
          some p.conf, p.payload, now⟩],
        if settings.litter_duration_threshold < p.duration_s ∨
            p.conf < settings.litter_conf_threshold then
          db.alerts ++ [⟨p.pet_id, none, "litter-anomaly",
            (if p.conf < settings.litter_conf_threshold then "high" else "moderate"),
            "open", none, now, now⟩]
        else db.alerts⟩,
       [.infoLitterReceived msg.subject p.pet_id]⟩ := by
  by_cases hc : p.conf < settings.litter_conf_threshold <;>
    by_cases hd : settings.litter_duration_threshold < p.duration_s <;>
      simp [handle_litter_event, hv, record_litter_event,
        create_alert_from_event, hc, hd]

/-- On a message that validates, with the alert commit succeeding, the
playroom handler commits exactly one alert row copied field-for-field from
the payload, and touches no event row. -/
lemma handle_playroom_alert_valid_eq (parseDatetime : Json → Option DateTime)
    (isHttpUrl : String → Bool) (env : DbEnv) (now : DateTime) (msg : Msg)
    (db : Db) (p : PlayroomAlertPayload)
    (henv : env.alertWriteOk = true)
    (hv : validatePlayroom parseDatetime isHttpUrl msg.data = .ok p) :
    handle_playroom_alert parseDatetime isHttpUrl env now msg db =
      ⟨.ok (),
       ⟨db.events,
        db.alerts ++ [⟨p.pet_id, some p.room_id, p.kind, p.severity, p.state,
          some p.evidence_url, p.ts, now⟩]⟩,
       [.infoPlayroomReceived p.room_id]⟩ := by
  simp [handle_playroom_alert, hv, record_playroom_alert, henv]

/-- C1: For every validated litter event and configured thresholds: if the
event's `conf` is below the confidence threshold, the litter handler
synthesizes exactly one alert with severity "high" regardless of
`duration_s`; if `conf` meets the threshold and `duration_s` exceeds the
duration threshold, it synthesizes exactly one alert with severity
"moderate"; if `conf` meets the threshold and `duration_s` does not exceed
the duration threshold, it synthesizes no alert. -/
theorem litter_rule_severity_policy (settings : EdgeSettings)
    (parseDatetime : Json → Option DateTime) (now : DateTime) (msg : Msg)
    (db : Db) (p : LitterEventPayload)
    (hv : validateLitter parseDatetime msg.data = .ok p) :
    (p.conf < settings.litter_conf_threshold →
      ∃ a, (handle_litter_event settings parseDatetime ⟨true, true⟩ now msg db).db.alerts
          = db.alerts ++ [a] ∧ a.severity = "high") ∧
    (settings.litter_conf_threshold ≤ p.conf →
      settings.litter_duration_threshold < p.duration_s →
      ∃ a, (handle_litter_event settings parseDatetime ⟨true, true⟩ now msg db).db.alerts
          = db.alerts ++ [a] ∧ a.severity = "moderate") ∧
    (settings.litter_conf_threshold ≤ p.conf →
      p.duration_s ≤ settings.litter_duration_threshold →
      (handle_litter_event settings parseDatetime ⟨true, true⟩ now msg db).db.alerts
          = db.alerts) := by
  rw [handle_litter_event_valid_eq settings parseDatetime now msg db p hv]
  refine ⟨?_, ?_, ?_⟩
  · intro hc
    exact ⟨⟨p.pet_id, none, "litter-anomaly", "high", "open", none, now, now⟩,
      by simp [hc], rfl⟩
  · intro hc hd
    exact ⟨⟨p.pet_id, none, "litter-anomaly", "moderate", "open", none, now, now⟩,
      by simp [hd, not_lt.mpr hc], rfl⟩
  · intro hc hd
    simp [not_lt.mpr hc, not_lt.mpr hd]

/-- Witness for `litter_rule_severity_policy`: the default thresholds, a
litter event with `duration_s = 200` and `conf = 1/10 < 2/5`; the handler
appends one alert of severity "high". -/
theorem litter_rule_severity_policy_witness :
    ∃ a, (handle_litter_event defaultSettings parseDatetimeNum ⟨true, true⟩ 0
        ⟨"events.litter.device1", some (mkLitterJson "p1" "use" 0 200 q1of10 [])⟩
        ⟨[], []⟩).db.alerts = [] ++ [a] ∧ a.severity = "high" :=
  (litter_rule_severity_policy defaultSettings parseDatetimeNum 0
    ⟨"events.litter.device1", some (mkLitterJson "p1" "use" 0 200 q1of10 [])⟩
    ⟨[], []⟩ ⟨"p1", "use", 0, 200, q1of10, []⟩ rfl).1 (by decide)

/-- C5: A litter-subject message whose body fails validation (malformed
JSON is `data = none`, a schema violation any other `.error`) makes the
handler log the error and return normally: no event row, no alert row, no
escaping exception. -/
theorem litter_validation_failure_dropped (settings : EdgeSettings)
    (parseDatetime : Json → Option DateTime) (env : DbEnv) (now : DateTime)
    (msg : Msg) (db : Db) (e : ValidationError)
    (hv : validateLitter parseDatetime msg.data = .error e) :
    handle_litter_event settings parseDatetime env now msg db =
      ⟨.ok (), db, [.errorInvalidLitter e]⟩ := by
  simp [handle_litter_event, hv]

/-- Witness for `litter_validation_failure_dropped`: bytes that are not
valid JSON on `events.litter.device1` leave the store untouched and only
log. -/
theorem litter_validation_failure_dropped_witness :
    handle_litter_event defaultSettings parseDatetimeNum ⟨true, true⟩ 0
      ⟨"events.litter.device1", none⟩ ⟨[], []⟩ =
      ⟨.ok (), ⟨[], []⟩, [.errorInvalidLitter .invalidJson]⟩ :=
  litter_validation_failure_dropped defaultSettings parseDatetimeNum
    ⟨true, true⟩ 0 ⟨"events.litter.device1", none⟩ ⟨[], []⟩ .invalidJson rfl

/-- C10: When the litter handler synthesizes an alert it passes no `ts`, so
`create_alert_from_event` falls back to the wall clock (`_utcnow()`): the
derived alert's `ts` is the persistence-time clock value, not the
triggering event's `ts` field. -/
theorem derived_alert_ts_from_clock (settings : EdgeSettings)
    (parseDatetime : Json → Option DateTime) (now : DateTime) (msg : Msg)
    (db : Db) (p : LitterEventPayload)
    (hv : validateLitter parseDatetime msg.data = .ok p)
    (hbr : settings.litter_duration_threshold < p.duration_s ∨
      p.conf < settings.litter_conf_threshold) :
    ∃ a, (handle_litter_event settings parseDatetime ⟨true, true⟩ now msg db).db.alerts
        = db.alerts ++ [a] ∧ a.ts = now ∧ (now ≠ p.ts → a.ts ≠ p.ts) := by
  rw [handle_litter_event_valid_eq settings parseDatetime now msg db p hv]
  exact ⟨⟨p.pet_id, none, "litter-anomaly",
    if p.conf < settings.litter_conf_threshold then "high" else "moderate",
    "open", none, now, now⟩, by simp [hbr], rfl, fun h => h⟩

/-- Witness for `derived_alert_ts_from_clock`: event `ts = 0`, clock at 7;
the derived alert carries `ts = 7`. -/
theorem derived_alert_ts_from_clock_witness :
    ∃ a, (handle_litter_event defaultSettings parseDatetimeNum ⟨true, true⟩ 7
        ⟨"events.litter.device1", some (mkLitterJson "p1" "use" 0 200 q9of10 [])⟩
        ⟨[], []⟩).db.alerts = [] ++ [a] ∧ a.ts = 7 ∧ ((7 : ℚ) ≠ 0 → a.ts ≠ 0) :=
  derived_alert_ts_from_clock defaultSettings parseDatetimeNum 7
    ⟨"events.litter.device1", some (mkLitterJson "p1" "use" 0 200 q9of10 [])⟩
    ⟨[], []⟩ ⟨"p1", "use", 0, 200, q9of10, []⟩ rfl (by decide)

/-- C6: Whatever the thresholds, environment, message and store, the litter
route either adds no alert or appends exactly one alert, and that alert has
kind "litter-anomaly", severity "moderate" or "high", state "open", no
`evidence_url` and no `room_id`. -/
theorem litter_alert_shape_invariant (settings : EdgeSettings)
    (parseDatetime : Json → Option DateTime) (env : DbEnv) (now : DateTime)
    (msg : Msg) (db : Db) :
    (handle_litter_event settings parseDatetime env now msg db).db.alerts = db.alerts ∨
    ∃ a, (handle_litter_event settings parseDatetime env now msg db).db.alerts
        = db.alerts ++ [a] ∧
      a.kind = "litter-anomaly" ∧ (a.severity = "moderate" ∨ a.severity = "high") ∧
      a.state = "open" ∧ a.evidence_url = none ∧ a.room_id = none := by
  obtain ⟨ew, aw⟩ := env
  cases hv : validateLitter parseDatetime msg.data with
  | error e => exact Or.inl (by simp [handle_litter_event, hv])
  | ok p =>
    cases ew with
    | false => exact Or.inl (by simp [handle_litter_event, hv, record_litter_event])
    | true =>
      cases aw with
      | false =>
        refine Or.inl ?_
        by_cases hd : settings.litter_duration_threshold < p.duration_s <;>
          by_cases hc : p.conf < settings.litter_conf_threshold <;>
            simp [handle_litter_event, hv, record_litter_event,
              create_alert_from_event, hd, hc]
      | true =>
        rw [handle_litter_event_valid_eq settings parseDatetime now msg db p hv]
        by_cases hbr : settings.litter_duration_threshold < p.duration_s ∨
            p.conf < settings.litter_conf_threshold
        · refine Or.inr ⟨⟨p.pet_id, none, "litter-anomaly",
            if p.conf < settings.litter_conf_threshold then "high" else "moderate",
            "open", none, now, now⟩, by simp [hbr], rfl, ?_, rfl, rfl, rfl⟩
          by_cases hc : p.conf < settings.litter_conf_threshold <;> simp [hc]
        · exact Or.inl (by simp [hbr])

/-- C7: On the playroom route, a payload that validates is stored as one
alert whose `pet_id`, `room_id`, `kind`, `severity`, `state`,
`evidence_url` and `ts` are copied verbatim from the payload; the event
table is untouched and the anomaly rule never runs (exactly one alert
stored, none synthesized). -/
theorem playroom_alert_stored_verbatim (parseDatetime : Json → Option DateTime)
    (isHttpUrl : String → Bool) (env : DbEnv) (now : DateTime) (msg : Msg)
    (db : Db) (p : PlayroomAlertPayload)
    (henv : env.alertWriteOk = true)
    (hv : validatePlayroom parseDatetime isHttpUrl msg.data = .ok p) :
    handle_playroom_alert parseDatetime isHttpUrl env now msg db =
      ⟨.ok (),
       ⟨db.events,
        db.alerts ++ [⟨p.pet_id, some p.room_id, p.kind, p.severity, p.state,
          some p.evidence_url, p.ts, now⟩]⟩,
       [.infoPlayroomReceived p.room_id]⟩ :=
  handle_playroom_alert_valid_eq parseDatetime isHttpUrl env now msg db p henv hv

/-- Witness for `playroom_alert_stored_verbatim`: the payload of end-to-end
scenario 5 is persisted verbatim as the sole alert. -/
theorem playroom_alert_stored_verbatim_witness :
    handle_playroom_alert parseDatetimeNum isUrlModel ⟨true, true⟩ 0
      ⟨"playroom.alerts.r1",
       some (mkPlayroomJson "p2" "r1" "fight" "high" "open" "https://x/e.mp4" 5)⟩
      ⟨[], []⟩ =
      ⟨.ok (),
       ⟨[], [⟨"p2", some "r1", "fight", "high", "open",
         some "https://x/e.mp4", 5, 0⟩]⟩,
       [.infoPlayroomReceived "r1"]⟩ :=
  playroom_alert_stored_verbatim parseDatetimeNum isUrlModel ⟨true, true⟩ 0
    ⟨"playroom.alerts.r1",
     some (mkPlayroomJson "p2" "r1" "fight" "high" "open" "https://x/e.mp4" 5)⟩
    ⟨[], []⟩ ⟨"p2", "r1", "fight", "high", "open", "https://x/e.mp4", 5⟩ rfl rfl

/-- When the event commit succeeds, a breach is present, and the alert
commit fails, the litter handler ends with the event row committed, no
alert row, only the receipt log line, and the `PersistenceError` escaping
(`session_scope` re-raises; `handle_litter_event` has no try/except around
the session block). -/
lemma handle_litter_event_alertfail_eq (settings : EdgeSettings)
    (parseDatetime : Json → Option DateTime) (now : DateTime) (msg : Msg)
    (db : Db) (p : LitterEventPayload)
    (hv : validateLitter parseDatetime msg.data = .ok p)
    (hbr : settings.litter_duration_threshold < p.duration_s ∨
      p.conf < settings.litter_conf_threshold) :
    handle_litter_event settings parseDatetime ⟨true, false⟩ now msg db =
      ⟨.error .commitFailed,
       ⟨db.events ++ [⟨msg.subject, p.pet_id, p.type, p.ts, some p.duration_s,
          some p.conf, p.payload, now⟩],
        db.alerts⟩,
       [.infoLitterReceived msg.subject p.pet_id]⟩ := by
  rcases hbr with hd | hc
  · by_cases hc : p.conf < settings.litter_conf_threshold <;>
      simp [handle_litter_event, hv, record_litter_event,
        create_alert_from_event, hd, hc]
  · by_cases hd : settings.litter_duration_threshold < p.duration_s <;>
      simp [handle_litter_event, hv, record_litter_event,
        create_alert_from_event, hd, hc]

/-- C8 counterexample: with default thresholds, a breaching event
(`duration_s = 200 > 180`) and an alert commit that fails, the complete
handler outcome is: the event row is committed and kept, no alert row, the
log holds only the info receipt line — no error entry for the failed alert
write — and the `PersistenceError` escapes the handler rather than being
logged, refuting the claim that the failure is logged. -/
theorem alert_persist_failure_unlogged_cx :
    handle_litter_event defaultSettings parseDatetimeNum ⟨true, false⟩ 0
      ⟨"events.litter.device1", some (mkLitterJson "p1" "use" 0 200 q9of10 [])⟩
      ⟨[], []⟩ =
      ⟨.error .commitFailed,
       ⟨[⟨"events.litter.device1", "p1", "use", 0, some 200, some q9of10, [], 0⟩],
        []⟩,
       [.infoLitterReceived "events.litter.device1" "p1"]⟩ := rfl

/-- C8 as amended: on the litter route the event write is committed before
any alert write begins, and if persisting the derived alert fails after
the event write succeeded, the already-committed event row remains stored
(it is not rolled back); the failure is not logged by the handler — the
exception propagates to the bus client. -/
theorem alert_persist_failure_event_retained (settings : EdgeSettings)
    (parseDatetime : Json → Option DateTime) (now : DateTime) (msg : Msg)
    (db : Db) (p : LitterEventPayload)
    (hv : validateLitter parseDatetime msg.data = .ok p)
    (hbr : settings.litter_duration_threshold < p.duration_s ∨
      p.conf < settings.litter_conf_threshold) :
    handle_litter_event settings parseDatetime ⟨true, false⟩ now msg db =
      ⟨.error .commitFailed,
       ⟨db.events ++ [⟨msg.subject, p.pet_id, p.type, p.ts, some p.duration_s,
          some p.conf, p.payload, now⟩],
        db.alerts⟩,
       [.infoLitterReceived msg.subject p.pet_id]⟩ :=
  handle_litter_event_alertfail_eq settings parseDatetime now msg db p hv hbr

/-- Witness for `alert_persist_failure_event_retained` at a concrete
breaching event with a failing alert commit. -/
theorem alert_persist_failure_event_retained_witness :
    handle_litter_event defaultSettings parseDatetimeNum ⟨true, false⟩ 3
      ⟨"events.litter.device2", some (mkLitterJson "p3" "use" 1 200 q9of10 [])⟩
      ⟨[], []⟩ =
      ⟨.error .commitFailed,
       ⟨[⟨"events.litter.device2", "p3", "use", 1, some 200, some q9of10, [], 3⟩],
        []⟩,
       [.infoLitterReceived "events.litter.device2" "p3"]⟩ :=
  alert_persist_failure_event_retained defaultSettings parseDatetimeNum 3
    ⟨"events.litter.device2", some (mkLitterJson "p3" "use" 1 200 q9of10 [])⟩
    ⟨[], []⟩ ⟨"p3", "use", 1, 200, q9of10, []⟩ rfl (Or.inl (by decide))

/-- C2 counterexample: the litter message `{pet_id:"p1", type:"use", ts:0,
duration_s:-1, conf:0.9, payload:{}}` has a negative `duration_s`, yet it
validates successfully (`duration_s: float` carries no `ge=0` constraint)
and the handler stores the event row — refuting both that validation fails
and that no event is stored. -/
theorem negative_duration_validates_cx :
    validateLitter parseDatetimeNum
        (some (mkLitterJson "p1" "use" 0 (-1) q9of10 [])) =
      .ok ⟨"p1", "use", 0, -1, q9of10, []⟩ ∧
    (handle_litter_event defaultSettings parseDatetimeNum ⟨true, true⟩ 0
        ⟨"events.litter.device1", some (mkLitterJson "p1" "use" 0 (-1) q9of10 [])⟩
        ⟨[], []⟩).db.events =
      [⟨"events.litter.device1", "p1", "use", 0, some (-1), some q9of10, [], 0⟩] :=
  ⟨rfl, rfl⟩

/-- C2 as amended: a litter message whose `duration_s` is a negative number
(and whose other fields are well-formed) passes validation — the schema
declares `duration_s` as a plain float with no lower bound — and the event
is stored with the negative duration. -/
theorem negative_duration_accepted (pid ty : String) (tsq dq cq : ℚ)
    (pl : List (String × Json)) (settings : EdgeSettings) (now : DateTime)
    (subj : String) (db : Db) (_hneg : dq < 0) :
    validateLitter parseDatetimeNum (some (mkLitterJson pid ty tsq dq cq pl)) =
      .ok ⟨pid, ty, tsq, dq, cq, pl⟩ ∧
    (handle_litter_event settings parseDatetimeNum ⟨true, true⟩ now
        ⟨subj, some (mkLitterJson pid ty tsq dq cq pl)⟩ db).db.events =
      db.events ++ [⟨subj, pid, ty, tsq, some dq, some cq, pl, now⟩] := by
  have hv : validateLitter parseDatetimeNum (some (mkLitterJson pid ty tsq dq cq pl)) =
      .ok ⟨pid, ty, tsq, dq, cq, pl⟩ := rfl
  refine ⟨hv, ?_⟩
  rw [handle_litter_event_valid_eq settings parseDatetimeNum now
    ⟨subj, some (mkLitterJson pid ty tsq dq cq pl)⟩ db ⟨pid, ty, tsq, dq, cq, pl⟩ hv]

/-- Witness for `negative_duration_accepted` at `duration_s = -1`. -/
theorem negative_duration_accepted_witness :
    (-1 : ℚ) < 0 ∧
    (validateLitter parseDatetimeNum
          (some (mkLitterJson "p2" "use" 5 (-1) q9of10 [])) =
        .ok ⟨"p2", "use", 5, -1, q9of10, []⟩ ∧
      (handle_litter_event defaultSettings parseDatetimeNum ⟨true, true⟩ 7
          ⟨"events.litter.device3", some (mkLitterJson "p2" "use" 5 (-1) q9of10 [])⟩
          ⟨[], []⟩).db.events =
        [] ++ [⟨"events.litter.device3", "p2", "use", 5, some (-1), some q9of10, [], 7⟩]) :=
  ⟨by decide, negative_duration_accepted "p2" "use" 5 (-1) q9of10 [] defaultSettings 7
    "events.litter.device3" ⟨[], []⟩ (by decide)⟩

/-- C3 counterexample: a litter message whose `pet_id` is the empty string
(and whose `type` is not) validates successfully (`pet_id: str` and
`type: str` carry no `min_length` constraint) and the handler stores the
event row — refuting both that validation fails and that no event is
stored. -/
theorem empty_strings_validate_cx :
    validateLitter parseDatetimeNum
        (some (mkLitterJson "" "use" 0 50 q9of10 [])) =
      .ok ⟨"", "use", 0, 50, q9of10, []⟩ ∧
    (handle_litter_event defaultSettings parseDatetimeNum ⟨true, true⟩ 0
        ⟨"events.litter.device1", some (mkLitterJson "" "use" 0 50 q9of10 [])⟩
        ⟨[], []⟩).db.events =
      [⟨"events.litter.device1", "", "use", 0, some 50, some q9of10, [], 0⟩] :=
  ⟨rfl, rfl⟩

/-- C3 as amended: every litter message in which `pet_id` or `type` is the
empty string (either one, the other arbitrary) passes validation — the
schema requires only the string type, not non-emptiness — and the event is
stored with those strings. -/
theorem empty_strings_accepted (pid ty : String) (tsq dq cq : ℚ)
    (pl : List (String × Json)) (settings : EdgeSettings) (now : DateTime)
    (subj : String) (db : Db) (_hempty : pid = "" ∨ ty = "") :
    validateLitter parseDatetimeNum (some (mkLitterJson pid ty tsq dq cq pl)) =
      .ok ⟨pid, ty, tsq, dq, cq, pl⟩ ∧
    (handle_litter_event settings parseDatetimeNum ⟨true, true⟩ now
        ⟨subj, some (mkLitterJson pid ty tsq dq cq pl)⟩ db).db.events =
      db.events ++ [⟨subj, pid, ty, tsq, some dq, some cq, pl, now⟩] := by
  have hv : validateLitter parseDatetimeNum (some (mkLitterJson pid ty tsq dq cq pl)) =
      .ok ⟨pid, ty, tsq, dq, cq, pl⟩ := rfl
  refine ⟨hv, ?_⟩
  rw [handle_litter_event_valid_eq settings parseDatetimeNum now
    ⟨subj, some (mkLitterJson pid ty tsq dq cq pl)⟩ db ⟨pid, ty, tsq, dq, cq, pl⟩ hv]

/-- Witness for `empty_strings_accepted`: only `type` is empty, `pet_id`
is not. -/
theorem empty_strings_accepted_witness :
    ("p4" = "" ∨ "" = "") ∧
    (validateLitter parseDatetimeNum
          (some (mkLitterJson "p4" "" 2 50 q9of10 [])) =
        .ok ⟨"p4", "", 2, 50, q9of10, []⟩ ∧
      (handle_litter_event defaultSettings parseDatetimeNum ⟨true, true⟩ 4
          ⟨"events.litter.device4", some (mkLitterJson "p4" "" 2 50 q9of10 [])⟩
          ⟨[], []⟩).db.events =
        [] ++ [⟨"events.litter.device4", "p4", "", 2, some 50, some q9of10, [], 4⟩]) :=
  ⟨Or.inr rfl, empty_strings_accepted "p4" "" 2 50 q9of10 [] defaultSettings 4
    "events.litter.device4" ⟨[], []⟩ (Or.inr rfl)⟩

/-- C4 counterexample: a litter message supplying every required field
except `payload` is rejected with "payload missing" — refuting that it
validates with `payload` defaulting to the empty map. -/
theorem payload_missing_rejected_cx :
    validateLitter parseDatetimeNum
        (some (Json.obj [("pet_id", Json.str "p1"), ("type", Json.str "use"),
          ("ts", Json.num 0), ("duration_s", Json.num 50),
          ("conf", Json.num q9of10)])) =
      .error (.missing "payload") := rfl

/-- C4 as amended: a litter message that omits `payload` fails validation —
`payload: Dict[str, Any]` is a required field with no default — so the
message is dropped rather than completed with an empty map. -/
theorem payload_field_required (pid ty : String) (tsq dq cq : ℚ) :
    validateLitter parseDatetimeNum
        (some (Json.obj [("pet_id", Json.str pid), ("type", Json.str ty),
          ("ts", Json.num tsq), ("duration_s", Json.num dq),
          ("conf", Json.num cq)])) =
      .error (.missing "payload") := rfl

/-- C9: Both inbound schemas are declared `extra="forbid"`: a message object
containing any top-level key outside the declared field list fails
validation on the litter respectively playroom route, whatever the other
keys hold. -/
theorem extra_keys_forbidden (parseDatetime : Json → Option DateTime)
    (isHttpUrl : String → Bool) (kvs : List (String × Json)) (k : String)
    (v : Json) (hmem : (k, v) ∈ kvs) :
    (k ∉ litterFields →
      ∃ e, validateLitter parseDatetime (some (Json.obj kvs)) = .error e) ∧
    (k ∉ playroomFields →
      ∃ e, validatePlayroom parseDatetime isHttpUrl (some (Json.obj kvs))
          = .error e) := by
  constructor
  · intro hk
    have hs : (kvs.find? (fun p => !(litterFields.contains p.1))).isSome :=
      List.find?_isSome.mpr ⟨(k, v), hmem, by simpa using hk⟩
    obtain ⟨x, hx⟩ := Option.isSome_iff_exists.mp hs
    refine ⟨.extraForbidden x.1, ?_⟩
    simp only [validateLitter]
    rw [hx]
    rfl
  · intro hk
    have hs : (kvs.find? (fun p => !(playroomFields.contains p.1))).isSome :=
      List.find?_isSome.mpr ⟨(k, v), hmem, by simpa using hk⟩
    obtain ⟨x, hx⟩ := Option.isSome_iff_exists.mp hs
    refine ⟨.extraForbidden x.1, ?_⟩
    simp only [validatePlayroom]
    rw [hx]
    rfl

/-- Witness for `extra_keys_forbidden`: a message carrying every litter
field plus the unknown key "oops" is rejected by both schemas. -/
theorem extra_keys_forbidden_witness :
    (∃ e, validateLitter parseDatetimeNum
        (some (Json.obj (("oops", Json.null) ::
          [("pet_id", Json.str "p1"), ("type", Json.str "use"),
           ("ts", Json.num 0), ("duration_s", Json.num 50),
           ("conf", Json.num q9of10), ("payload", Json.obj [])]))) = .error e) ∧
    (∃ e, validatePlayroom parseDatetimeNum isUrlModel
        (some (Json.obj (("oops", Json.null) ::
          [("pet_id", Json.str "p1"), ("type", Json.str "use"),
           ("ts", Json.num 0), ("duration_s", Json.num 50),
           ("conf", Json.num q9of10), ("payload", Json.obj [])]))) = .error e) :=
  extra_keys_forbidden parseDatetimeNum isUrlModel
    (("oops", Json.null) ::
      [("pet_id", Json.str "p1"), ("type", Json.str "use"),
       ("ts", Json.num 0), ("duration_s", Json.num 50),
       ("conf", Json.num q9of10), ("payload", Json.obj [])])
    "oops" Json.null (List.mem_cons_self _ _)
    |>.imp (fun h => h (by decide)) (fun h => h (by decide))
